import Mathlib

/-!
# go-flutter platform-channel messaging: messenger and MethodChannel

A shallow embedding of `messenger.go` (package flutter),
`plugin/method-channel.go` (package plugin), and the framebuffer-size callback
of `flutter.go`.

Conventions of the embedding

* A Go `[]byte` is a `ByteSlice`: `none` is the nil slice.
* A Go `error` is an `Option Err`: `none` is the nil error.
* A Go `interface{}` is a `Value`.
* Code that may call `os.Exit` or hit a run-time panic returns a `Ctl`.
* Plugin code (codec, method handlers, `BinaryMessenger.Send`) runs over a
  `World σ`: a user state `σ` that handlers may change, and a log that records
  every call the method channel makes through an interface, in order.
* `handlePlatformMessage` starts a goroutine; the embedding is the body of that
  goroutine run to completion. Its own effects (console output and engine
  calls) are collected in the `trace` of the resulting `Run`.
* The read/write locks have no sequential effect and are left out.
* A `*MethodChannel` is an index into the `cells` of a `Heap`, so that a handler
  registered on the messenger sees later changes of the method table.
* The float64 values of `flutter.go` are rationals.
-/

namespace GoFlutter

/-! ## Values, errors, control -/

/-- Go `[]byte`; `none` is the nil slice. -/
abbrev ByteSlice := Option (List Nat)

/-- Go `interface{}` values. `flutterError` is a value of dynamic type
`*FlutterError` (fields Code, Message, Details). -/
inductive Value where
  | null
  | bool (b : Bool)
  | int (n : Int)
  | str (s : String)
  | flutterError (code message : String) (details : Value)
  deriving DecidableEq, Repr

/-- Go `error` values that occur in the two files. -/
inductive Err where
  /-- The result of `errors.New(msg)`, or any plain error with text msg. -/
  | new (msg : String)
  /-- The result of `errors.Wrap(cause, msg)` for a non-nil cause. -/
  | wrap (cause : Err) (msg : String)
  /-- A `*FlutterError` used as an error. -/
  | flutterError (code message : String) (details : Value)
  deriving DecidableEq, Repr

/-- The function `errors.Wrap` of github.com/pkg/errors: nil stays nil. -/
def errors.Wrap (err : Option Err) (message : String) : Option Err :=
  match err with
  | none => none
  | some e => some (Err.wrap e message)

/-- How a piece of Go code ends: it returns, it panics, or the process is
ended by `os.Exit`. -/
inductive Ctl (α : Type) where
  | ret (a : α)
  | panic (reason : String)
  | exit (code : Int)
  deriving DecidableEq, Repr

/-- The `embedder.Result` status of an engine call. -/
inductive Result where
  | KSuccess
  | KInvalidLibraryVersion
  | KInvalidArguments
  deriving DecidableEq, Repr

/-- The handle of `embedder.PlatformMessage.ResponseHandle`; `cHandle` is the C
pointer, `none` when it is NULL. -/
structure PlatformMessageResponseHandle where
  cHandle : Option Nat
  deriving DecidableEq, Repr

/-- The struct `embedder.PlatformMessage`. -/
structure PlatformMessage where
  Channel : String
  Message : ByteSlice
  ResponseHandle : PlatformMessageResponseHandle
  deriving DecidableEq, Repr

/-- Modelled from the spec: `PlatformMessage.ExpectsReply` of package embedder is
not among the sources. The spec says the reply token "exists only if the sender
expects a reply", so a reply is expected exactly when the handle is present. -/
def PlatformMessage.ExpectsReply (p : PlatformMessage) : Bool :=
  p.ResponseHandle.cHandle.isSome

/-- The struct `plugin.MethodCall`. -/
structure MethodCall where
  Method : String
  Arguments : Value
  deriving DecidableEq, Repr

/-- An argument of a `fmt.Printf` call. -/
inductive PrintArg where
  | str (s : String)
  | err (e : Err)
  deriving DecidableEq, Repr

/-- Observable effects, one constructor per kind of call site. -/
inductive Event where
  /-- Call of `fmt.Println(s)`. -/
  | Println (s : String)
  /-- Call of `fmt.Printf(format, args...)`. -/
  | Printf (format : String) (args : List PrintArg)
  /-- Call of `engine.SendPlatformMessage(msg)`. -/
  | SendPlatformMessage (msg : PlatformMessage)
  /-- Call of `engine.SendPlatformMessageResponse(handle, encodedReply)`. -/
  | SendPlatformMessageResponse (handle : PlatformMessageResponseHandle) (encodedReply : ByteSlice)
  /-- Call of `methodCodec.EncodeMethodCall(call)`. -/
  | EncodeMethodCall (call : MethodCall)
  /-- Call of `methodCodec.DecodeMethodCall(binaryMessage)`. -/
  | DecodeMethodCall (binaryMessage : ByteSlice)
  /-- Call of `methodCodec.EncodeSuccessEnvelope(reply)`. -/
  | EncodeSuccessEnvelope (reply : Value)
  /-- Call of `methodCodec.EncodeErrorEnvelope(code, message, details)`. -/
  | EncodeErrorEnvelope (code message : String) (details : Value)
  /-- Call of `methodCodec.DecodeEnvelope(envelope)`. -/
  | DecodeEnvelope (envelope : ByteSlice)
  /-- Call of `messenger.Send(channel, encodedMessage)` through the BinaryMessenger interface. -/
  | Send (channel : String) (encodedMessage : ByteSlice)
  /-- Call of `methodHandler.HandleMethod(arguments)` for the handler bound to method. -/
  | HandleMethod (method : String) (arguments : Value)
  deriving DecidableEq, Repr

/-! ## messenger.go -/

/-- The type `plugin.ChannelHandlerFunc`: a binary handler over a state `ω`. It
returns `(binaryReply, err)`, unless it panics or exits. -/
abbrev ChannelHandlerFunc (ω : Type) := ByteSlice → ω → Ctl (ByteSlice × Option Err) × ω

/-- The two engine entry points the messenger uses; the engine is outside the
repository, so its answers are parameters. -/
structure FlutterEngine where
  SendPlatformMessage : PlatformMessage → Result
  SendPlatformMessageResponse : PlatformMessageResponseHandle → ByteSlice → Result

/-- The struct `messenger`. The Go map `channels` is a lookup function; a key
that is absent and a key bound to a nil func both read as `none`. -/
structure messenger (ω : Type) where
  engine : FlutterEngine
  channels : String → Option (ChannelHandlerFunc ω)

/-- The constructor `newMessenger`: an empty channel map. -/
def newMessenger {ω : Type} (engine : FlutterEngine) : messenger ω :=
  { engine := engine, channels := fun _ => none }

/-- The method `messenger.SetChannelHandler`: a nil handler deletes the entry,
any other handler is stored under the channel name. -/
def messenger.SetChannelHandler {ω : Type} (m : messenger ω) (channel : String)
    (channelHandler : Option (ChannelHandlerFunc ω)) : messenger ω :=
  match channelHandler with
  | none => { m with channels := fun k => if k = channel then none else m.channels k }
  | some h => { m with channels := fun k => if k = channel then some h else m.channels k }

/-- What one run of the goroutine of `handlePlatformMessage` did. -/
structure Run (ω : Type) where
  /-- Whether the goroutine returned, panicked, or ended the process. -/
  status : Ctl Unit
  /-- The state the channel handler left behind. -/
  state : ω
  /-- Console output and engine calls made by the messenger itself. -/
  trace : List Event

/-- The body of the goroutine started by `messenger.handlePlatformMessage`. -/
def messenger.handlePlatformMessage {ω : Type} (m : messenger ω) (message : PlatformMessage)
    (s : ω) : Run ω :=
  match m.channels message.Channel with
  | none =>
    { status := Ctl.exit 1, state := s,
      trace := [Event.Println ("go-flutter: no handler found for channel " ++ message.Channel)] }
  | some channelHander =>
    match channelHander message.Message s with
    | (Ctl.panic reason, s1) => { status := Ctl.panic reason, state := s1, trace := [] }
    | (Ctl.exit code, s1) => { status := Ctl.exit code, state := s1, trace := [] }
    | (Ctl.ret (_, some _), s1) =>
      { status := Ctl.exit 1, state := s1,
        trace := [Event.Println ("go-flutter: handling message on channel " ++ message.Channel
                    ++ " failed")] }
    | (Ctl.ret (encodedReply, none), s1) =>
      if message.ExpectsReply then
        let res := m.engine.SendPlatformMessageResponse message.ResponseHandle encodedReply
        { status := Ctl.ret (), state := s1,
          trace := Event.SendPlatformMessageResponse message.ResponseHandle encodedReply ::
            (if res ≠ Result.KSuccess then
              [Event.Println ("go-flutter: failed sending response for message on channel "
                ++ message.Channel)]
            else []) }
      else
        { status := Ctl.ret (), state := s1, trace := [] }

/-- The replies sent in a trace: the arguments of every
`SendPlatformMessageResponse`, in order. -/
def responses : List Event → List (PlatformMessageResponseHandle × ByteSlice)
  | [] => []
  | Event.SendPlatformMessageResponse h r :: es => (h, r) :: responses es
  | _ :: es => responses es

/-! ## plugin/method-channel.go -/

/-- What plugin code runs over: the user state, and the log of the calls the
method channel made through its interfaces. -/
structure World (σ : Type) where
  user : σ
  log : List Event

/-- Append one event to the log. -/
def World.emit {σ : Type} (w : World σ) (e : Event) : World σ :=
  { w with log := w.log ++ [e] }

/-- The interface `plugin.MethodCodec`, whose implementations are not among
the sources: its five operations are parameters. Each returns the Go pair
`(value, err)`. -/
structure MethodCodec where
  EncodeMethodCall : MethodCall → ByteSlice × Option Err
  DecodeMethodCall : ByteSlice → MethodCall × Option Err
  EncodeSuccessEnvelope : Value → ByteSlice × Option Err
  EncodeErrorEnvelope : String → String → Value → ByteSlice × Option Err
  DecodeEnvelope : ByteSlice → Value × Option Err

/-- The part of the interface `plugin.BinaryMessenger` that a constructed
MethodChannel calls: `Send`, which may change the user state. -/
structure BinaryMessenger (σ : Type) where
  Send : String → ByteSlice → σ → (ByteSlice × Option Err) × σ

/-- A Go func `func(arguments interface{}) (reply interface{}, err error)`. -/
abbrev HandlerFn (σ : Type) := Value → σ → (Value × Option Err) × σ

/-- A non-nil value of the interface `MethodHandler`. The one implementing type
in the sources is `MethodHandlerFunc`, a func type, so the value it wraps may be
the nil func (`f = none`). -/
inductive MethodHandler (σ : Type) where
  | MethodHandlerFunc (f : Option (HandlerFn σ))

/-- The method `MethodHandlerFunc.HandleMethod`: `return f(arguments)`. Calling
the nil func is a run-time panic. -/
def MethodHandler.HandleMethod {σ : Type} (h : MethodHandler σ) (arguments : Value) (u : σ) :
    Ctl (Value × Option Err) × σ :=
  match h with
  | MethodHandler.MethodHandlerFunc none =>
    (Ctl.panic "invalid memory address or nil pointer dereference", u)
  | MethodHandler.MethodHandlerFunc (some f) =>
    match f arguments u with
    | (r, u1) => (Ctl.ret r, u1)

/-- The struct `MethodChannel`. The Go map `methods` is a lookup function; a
missing key and a key bound to the nil interface both read as `none`. -/
structure MethodChannel (σ : Type) where
  messenger : BinaryMessenger σ
  channelName : String
  methodCodec : MethodCodec
  methods : String → Option (MethodHandler σ)

/-- The method `MethodChannel.InvokeMethod`. The nil result is `Value.null`. -/
def MethodChannel.InvokeMethod {σ : Type} (m : MethodChannel σ) (name : String)
    (arguments : Value) (w : World σ) : (Value × Option Err) × World σ :=
  let call : MethodCall := { Method := name, Arguments := arguments }
  let w1 := w.emit (Event.EncodeMethodCall call)
  match m.methodCodec.EncodeMethodCall call with
  | (_, some err) => ((Value.null, errors.Wrap (some err) "failed to encode methodcall"), w1)
  | (encodedMessage, none) =>
    let w2 := w1.emit (Event.Send m.channelName encodedMessage)
    match m.messenger.Send m.channelName encodedMessage w2.user with
    | ((_, some err), u) =>
      ((Value.null, errors.Wrap (some err) "failed to send methodcall"), { w2 with user := u })
    | ((encodedReply, none), u) =>
      let w3 := World.emit { w2 with user := u } (Event.DecodeEnvelope encodedReply)
      match m.methodCodec.DecodeEnvelope encodedReply with
      | (Value.flutterError code message details, _) =>
        ((Value.null, some (Err.flutterError code message details)), w3)
      | (result, _) => ((result, none), w3)

/-- The method `MethodChannel.Handle`: `b.methods[methodName] = handler`. -/
def MethodChannel.Handle {σ : Type} (b : MethodChannel σ) (methodName : String)
    (handler : Option (MethodHandler σ)) : MethodChannel σ :=
  { b with methods := fun k => if k = methodName then handler else b.methods k }

/-- The method `MethodChannel.HandleFunc`. The branch for a nil `f` does not
return, so the second `Handle` runs in every case; `MethodHandlerFunc(f)` of a
nil `f` is a non-nil interface value. -/
def MethodChannel.HandleFunc {σ : Type} (b : MethodChannel σ) (methodName : String)
    (f : Option (HandlerFn σ)) : MethodChannel σ :=
  let b1 := if f.isNone then b.Handle methodName none else b
  b1.Handle methodName (some (MethodHandler.MethodHandlerFunc f))

/-- The method `MethodChannel.handleChannel`. -/
def MethodChannel.handleChannel {σ : Type} (b : MethodChannel σ) (binaryMessage : ByteSlice)
    (w : World σ) : Ctl (ByteSlice × Option Err) × World σ :=
  let w1 := w.emit (Event.DecodeMethodCall binaryMessage)
  match b.methodCodec.DecodeMethodCall binaryMessage with
  | (_, some err) =>
    (Ctl.ret (none, errors.Wrap (some err) "failed to decode incomming message"), w1)
  | (methodCall, none) =>
    match b.methods methodCall.Method with
    | none =>
      (Ctl.ret (none, none),
        w1.emit (Event.Printf
          "go-flutter: no method handler registered for method '%s' on channel '%s'\n"
          [PrintArg.str methodCall.Method, PrintArg.str b.channelName]))
    | some methodHandler =>
      let w2 := w1.emit (Event.HandleMethod methodCall.Method methodCall.Arguments)
      match methodHandler.HandleMethod methodCall.Arguments w2.user with
      | (Ctl.panic reason, u) => (Ctl.panic reason, { w2 with user := u })
      | (Ctl.exit code, u) => (Ctl.exit code, { w2 with user := u })
      | (Ctl.ret (_, some err), u) =>
        (Ctl.ret (none, errors.Wrap (some err) "handler for incoming method call failed"),
          World.emit { w2 with user := u } (Event.Printf
            "go-flutter: handler for method '%s' on channel '%s' returned an error: %v"
            [PrintArg.str methodCall.Method, PrintArg.str b.channelName, PrintArg.err err]))
      | (Ctl.ret (reply, none), u) =>
        let w3 := World.emit { w2 with user := u } (Event.EncodeSuccessEnvelope reply)
        match b.methodCodec.EncodeSuccessEnvelope reply with
        | (_, some err) =>
          (Ctl.ret (none, errors.Wrap (some err) "failed to encode outgoing reply"), w3)
        | (binaryReply, none) => (Ctl.ret (binaryReply, none), w3)

/-- The events of a log that are calls of a method handler. -/
def handlerCalls : List Event → List (String × Value)
  | [] => []
  | Event.HandleMethod m a :: es => (m, a) :: handlerCalls es
  | _ :: es => handlerCalls es

/-- Whether an event is a call of one of the two envelope encoders. -/
def Event.isEnvelopeEncoding : Event → Bool
  | Event.EncodeSuccessEnvelope _ => true
  | Event.EncodeErrorEnvelope _ _ _ => true
  | _ => false

/-- Whether an event is a call of `EncodeErrorEnvelope`. -/
def Event.isErrorEnvelope : Event → Bool
  | Event.EncodeErrorEnvelope _ _ _ => true
  | _ => false


/-! ## Concrete inputs -/

/-- An engine that accepts every call. -/
def engineOk : FlutterEngine :=
  { SendPlatformMessage := fun _ => Result.KSuccess,
    SendPlatformMessageResponse := fun _ _ => Result.KSuccess }

/-- A binary handler that replies with its payload and counts its calls. -/
def echoHandler : ChannelHandlerFunc Nat :=
  fun msg n => (Ctl.ret (msg, none), n + 1)

/-- A binary handler that returns an error and adds 100 to the state. -/
def failHandler : ChannelHandlerFunc Nat :=
  fun _ n => (Ctl.ret (none, some (Err.new "boom")), n + 100)

/-- A message on channel "c" that carries reply token 7. -/
def msgWithToken : PlatformMessage :=
  { Channel := "c", Message := some [1, 2], ResponseHandle := { cHandle := some 7 } }

/-- A message on channel "c" that carries no reply token. -/
def msgNoToken : PlatformMessage :=
  { Channel := "c", Message := some [1, 2], ResponseHandle := { cHandle := none } }

/-- A codec over small byte strings. Calls: [0] is echo(1), [1] is missing(),
[2] is fail(), [3] is text("a"); anything else is rejected. Envelopes: [10] and
[10, n] are Success, [11] is the Error envelope ("E1", "bad input", nil); a
string cannot be encoded. -/
def testCodec : MethodCodec :=
  { EncodeMethodCall := fun call =>
      if call.Method = "" then (none, some (Err.new "empty method name")) else (some [0], none),
    DecodeMethodCall := fun b =>
      match b with
      | some [0] => ({ Method := "echo", Arguments := Value.int 1 }, none)
      | some [1] => ({ Method := "missing", Arguments := Value.null }, none)
      | some [2] => ({ Method := "fail", Arguments := Value.null }, none)
      | some [3] => ({ Method := "text", Arguments := Value.str "a" }, none)
      | _ => ({ Method := "", Arguments := Value.null }, some (Err.new "malformed call")),
    EncodeSuccessEnvelope := fun v =>
      match v with
      | Value.null => (some [10], none)
      | Value.int n => (some [10, n.toNat], none)
      | _ => (none, some (Err.new "cannot encode value")),
    EncodeErrorEnvelope := fun _ _ _ => (some [11], none),
    DecodeEnvelope := fun b =>
      match b with
      | some [10] => (Value.null, none)
      | some [10, n] => (Value.int n, none)
      | some [11] => (Value.null, some (Err.flutterError "E1" "bad input" Value.null))
      | _ => (Value.null, some (Err.new "invalid envelope")) }

/-- A BinaryMessenger whose Send succeeds and hands back the Error envelope [11]. -/
def replyMessenger : BinaryMessenger Nat :=
  { Send := fun _ _ n => ((some [11], none), n + 1000) }

/-- A method handler that returns its argument and counts its calls. -/
def echoMethod : HandlerFn Nat :=
  fun a n => ((a, none), n + 1)

/-- A method handler that returns the error ("E1", "bad input", nil). -/
def failMethod : HandlerFn Nat :=
  fun _ n => ((Value.null, some (Err.flutterError "E1" "bad input" Value.null)), n + 100)

/-- A method channel "ch" with no method registered. -/
def emptyChannel : MethodChannel Nat :=
  { messenger := replyMessenger, channelName := "ch", methodCodec := testCodec,
    methods := fun _ => none }

/-- The channel "ch" with handlers for echo, fail and text. -/
def testChannel : MethodChannel Nat :=
  ((emptyChannel.HandleFunc "echo" (some echoMethod)).HandleFunc "fail"
    (some failMethod)).HandleFunc "text" (some echoMethod)

/-- The initial world: user state 0 and an empty log. -/
def world0 : World Nat := { user := 0, log := [] }

/-- The method `messenger.Send`. The named result `err` holds its zero value
(nil) when it is tested, so the branch that would return a FlutterError is
written out as in the source. The second component is the engine call made. -/
def messenger.Send {ω : Type} (m : messenger ω) (channel : String) (encodedMessage : ByteSlice) :
    (ByteSlice × Option Err) × List Event :=
  let err : Option Err := none
  let msg : PlatformMessage :=
    { Channel := channel, Message := encodedMessage, ResponseHandle := { cHandle := none } }
  let res := m.engine.SendPlatformMessage msg
  match err with
  | some (Err.flutterError code message details) =>
    ((none, some (Err.flutterError code message details)), [Event.SendPlatformMessage msg])
  | _ =>
    if res ≠ Result.KSuccess then
      ((none, some (Err.new "failed to send message")), [Event.SendPlatformMessage msg])
    else
      ((none, none), [Event.SendPlatformMessage msg])

/-- The plugin side of the Go heap: the plugin world, and the MethodChannel
structs allocated so far. A `*MethodChannel` is an index into `cells`. -/
structure Heap (σ : Type) where
  world : World σ
  cells : List (MethodChannel σ)

/-- The method value `mc.handleChannel` for the pointer mc: each call reads the
struct that mc points to at the time of the call. -/
def handleChannelAt {σ : Type} (mc : Nat) : ChannelHandlerFunc (Heap σ) :=
  fun binaryMessage h =>
    match h.cells[mc]? with
    | none => (Ctl.panic "invalid memory address or nil pointer dereference", h)
    | some b =>
      match b.handleChannel binaryMessage h.world with
      | (r, w) => (r, { h with world := w })

/-- The binary handler that runs `handleChannel` of the given struct value. -/
def handleChannelOf {σ : Type} (b : MethodChannel σ) : ChannelHandlerFunc (Heap σ) :=
  fun binaryMessage h =>
    match b.handleChannel binaryMessage h.world with
    | (r, w) => (r, { h with world := w })

/-- An implementation of the interface `plugin.BinaryMessenger` whose state has
type `μ`: the Send method bound to the messenger, and SetChannelHandler. -/
structure MessengerImpl (σ μ : Type) where
  Send : μ → BinaryMessenger σ
  SetChannelHandler : String → Option (ChannelHandlerFunc (Heap σ)) → μ → μ

/-- The messenger of package flutter as an implementation of BinaryMessenger.
Its Send only uses the engine, which never changes. -/
def messengerImpl {σ : Type} : MessengerImpl σ (messenger (Heap σ)) :=
  { Send := fun m => { Send := fun channel encodedMessage u => ((m.Send channel encodedMessage).1, u) },
    SetChannelHandler := fun channel channelHandler m => m.SetChannelHandler channel channelHandler }

/-- The function `NewMethodChannel`: allocates the struct with an empty method
table, registers its handleChannel on the messenger, and returns the pointer.
The result is the pointer, the messenger after the call, and the heap. -/
def NewMethodChannel {σ μ : Type} (impl : MessengerImpl σ μ) (messenger : μ)
    (channelName : String) (methodCodec : MethodCodec) (h : Heap σ) : Nat × μ × Heap σ :=
  let mc : MethodChannel σ :=
    { messenger := impl.Send messenger, channelName := channelName, methodCodec := methodCodec,
      methods := fun _ => none }
  let p := h.cells.length
  let h1 : Heap σ := { h with cells := h.cells ++ [mc] }
  (p, impl.SetChannelHandler channelName (some (handleChannelAt p)) messenger, h1)

/-- The call `mc.HandleFunc(methodName, f)` through the pointer mc. -/
def Heap.HandleFunc {σ : Type} (h : Heap σ) (mc : Nat) (methodName : String)
    (f : Option (HandlerFn σ)) : Heap σ :=
  match h.cells[mc]? with
  | none => h
  | some b => { h with cells := h.cells.set mc (b.HandleFunc methodName f) }

/-- The calls of Send recorded in a log, with their arguments. -/
def sendCalls : List Event → List (String × ByteSlice)
  | [] => []
  | Event.Send c b :: es => (c, b) :: sendCalls es
  | _ :: es => sendCalls es

/-- Whether an event is a call of DecodeEnvelope. -/
def Event.isDecodeEnvelope : Event → Bool
  | Event.DecodeEnvelope _ => true
  | _ => false

/-- An implementation of BinaryMessenger that only records the channel names
passed to SetChannelHandler. -/
def recordingImpl : MessengerImpl Nat (List String) :=
  { Send := fun _ => replyMessenger,
    SetChannelHandler := fun channel _ l => l ++ [channel] }

/-- An engine that rejects every call. -/
def engineBad : FlutterEngine :=
  { SendPlatformMessage := fun _ => Result.KInvalidArguments,
    SendPlatformMessageResponse := fun _ _ => Result.KInvalidArguments }

/-- The heap before any method channel exists. -/
def heap0 : Heap Nat := { world := world0, cells := [] }

/-- A message on channel "ch" with token 7 whose payload is the call echo(1). -/
def msgEcho : PlatformMessage :=
  { Channel := "ch", Message := some [0], ResponseHandle := { cHandle := some 7 } }

/-- Two method channels built on "ch" one after the other; on the first, echo is
bound to failMethod, on the second to echoMethod. The result is the two
pointers, the messenger and the heap. -/
def twoChannels : Nat × Nat × messenger (Heap Nat) × Heap Nat :=
  match NewMethodChannel messengerImpl (newMessenger engineOk) "ch" testCodec heap0 with
  | (mc1, m1, h1) =>
    match NewMethodChannel messengerImpl m1 "ch" testCodec (h1.HandleFunc mc1 "echo" (some failMethod)) with
    | (mc2, m2, h2) => (mc1, mc2, m2, h2.HandleFunc mc2 "echo" (some echoMethod))

/-! ## flutter.go: the framebuffer-size callback

The float64 values are modelled by rationals: the arithmetic of the callback is
one division, one multiplication, one division, and comparisons. -/

/-- The constant `dpPerInch`. -/
def dpPerInch : ℚ := 160

/-- The struct `embedder.WindowMetricsEvent`. -/
structure WindowMetricsEvent where
  Width : Int
  Height : Int
  PixelRatio : ℚ
  deriving DecidableEq

/-- The func value made by `newGLFWFramebufferSizeCallback`: its two captured
variables. The func assigns to the captured `pixelRatio`, so the variable is
part of the state that one call hands to the next. -/
structure FramebufferSizeCallback where
  pixelRatio : ℚ
  monitorScreenCoordinatesPerInch : ℚ
  deriving DecidableEq

/-- The function `newGLFWFramebufferSizeCallback`. -/
def newGLFWFramebufferSizeCallback (pixelRatio monitorScreenCoordinatesPerInch : ℚ) :
    FramebufferSizeCallback :=
  { pixelRatio := pixelRatio, monitorScreenCoordinatesPerInch := monitorScreenCoordinatesPerInch }

/-- What one call of the callback did: the captured variables afterwards, the
console lines, and the event passed to SendWindowMetricsEvent. -/
structure FramebufferSizeCall where
  closure : FramebufferSizeCallback
  printed : List String
  sent : WindowMetricsEvent
  deriving DecidableEq

/-- One call of the func made by `newGLFWFramebufferSizeCallback`; `width` is
the first result of `window.GetSize()`. -/
def FramebufferSizeCallback.call (cb : FramebufferSizeCallback) (width : Int)
    (widthPx heightPx : Int) : FramebufferSizeCall :=
  if cb.pixelRatio = 0 then
    if width = 0 then
      { closure := { cb with pixelRatio := 1 }, printed := [],
        sent := { Width := widthPx, Height := heightPx, PixelRatio := 1 } }
    else
      let pixelsPerScreenCoordinate : ℚ := (widthPx : ℚ) / (width : ℚ)
      let dpi : ℚ := pixelsPerScreenCoordinate * cb.monitorScreenCoordinatesPerInch
      let pixelRatio : ℚ := dpi / dpPerInch
      if pixelRatio < 1 then
        { closure := { cb with pixelRatio := 1 },
          printed := ["go-flutter: calculated pixelRatio limited to a minimum of 1.0"],
          sent := { Width := widthPx, Height := heightPx, PixelRatio := 1 } }
      else
        { closure := { cb with pixelRatio := pixelRatio }, printed := [],
          sent := { Width := widthPx, Height := heightPx, PixelRatio := pixelRatio } }
  else
    { closure := cb, printed := [],
      sent := { Width := widthPx, Height := heightPx, PixelRatio := cb.pixelRatio } }

/-- The pixel ratio that the claim about the callback asks for, in its words:
max(1, (widthPx / width) * monitorScreenCoordinatesPerInch / 160) when the window
width is non-zero, and 1 when it is zero. -/
def claimedPixelRatio (monitorScreenCoordinatesPerInch : ℚ) (width widthPx : Int) : ℚ :=
  if width = 0 then 1
  else max 1 (((widthPx : ℚ) / (width : ℚ)) * monitorScreenCoordinatesPerInch / 160)

/-- The heap when the second channel is made: the first channel exists and has
failMethod registered for echo. -/
def heapOne : Heap Nat :=
  (NewMethodChannel messengerImpl (newMessenger engineOk) "ch" testCodec heap0).2.2.HandleFunc
    0 "echo" (some failMethod)

/-! ## Registrations through a pointer -/

/-- A call that changes the method table of the struct a pointer mc names:
`mc.Handle(methodName, handler)` or `mc.HandleFunc(methodName, f)`. -/
inductive Registration (σ : Type) where
  | Handle (mc : Nat) (methodName : String) (handler : Option (MethodHandler σ))
  | HandleFunc (mc : Nat) (methodName : String) (f : Option (HandlerFn σ))

/-- The pointer a registration goes through. -/
def Registration.mc {σ : Type} : Registration σ → Nat
  | Registration.Handle mc _ _ => mc
  | Registration.HandleFunc mc _ _ => mc

/-- The registration applied to the struct value it reaches. -/
def Registration.applyTo {σ : Type} (r : Registration σ) (b : MethodChannel σ) :
    MethodChannel σ :=
  match r with
  | Registration.Handle _ methodName handler => b.Handle methodName handler
  | Registration.HandleFunc _ methodName f => b.HandleFunc methodName f

/-- One registration on the heap: the struct at the pointer is replaced by the
struct with the changed table. -/
def Heap.register {σ : Type} (h : Heap σ) (r : Registration σ) : Heap σ :=
  match h.cells[r.mc]? with
  | none => h
  | some b => { h with cells := h.cells.set r.mc (r.applyTo b) }

/-- A sequence of registrations on the heap, first to last. -/
def Heap.registerAll {σ : Type} (h : Heap σ) (rs : List (Registration σ)) : Heap σ :=
  rs.foldl Heap.register h

/-- The registrations of a sequence that go through the pointer mc, applied to
a struct value, first to last. -/
def MethodChannel.registerAll {σ : Type} (b : MethodChannel σ) (mc : Nat)
    (rs : List (Registration σ)) : MethodChannel σ :=
  (rs.filter (fun r => r.mc = mc)).foldl (fun b r => r.applyTo b) b

/-- A message on channel "ch" with token 7 whose payload is the call fail(). -/
def msgFail : PlatformMessage :=
  { Channel := "ch", Message := some [2], ResponseHandle := { cHandle := some 7 } }

/-- Registrations made after the first channel (pointer 0) exists: fail and echo
are bound to failMethod on it. -/
def regsFirst : List (Registration Nat) :=
  [Registration.HandleFunc 0 "fail" (some failMethod),
   Registration.HandleFunc 0 "echo" (some failMethod)]

/-- Registrations made after the second channel (pointer 1) exists: echo is
bound to echoMethod on the second, text to failMethod on the first. -/
def regsSecond : List (Registration Nat) :=
  [Registration.HandleFunc 1 "echo" (some echoMethod),
   Registration.Handle 0 "text" (some (MethodHandler.MethodHandlerFunc (some failMethod)))]

/-- The first construction on "ch": pointer, messenger and heap. -/
def firstNew : Nat × messenger (Heap Nat) × Heap Nat :=
  NewMethodChannel messengerImpl (newMessenger engineOk) "ch" testCodec heap0

/-- The second construction on "ch", made after the registrations regsFirst. -/
def secondNew : Nat × messenger (Heap Nat) × Heap Nat :=
  NewMethodChannel messengerImpl firstNew.2.1 "ch" testCodec (firstNew.2.2.registerAll regsFirst)

/-- The struct of the second channel after the registrations regsSecond: only
echo is bound. -/
def secondStruct : MethodChannel Nat :=
  MethodChannel.registerAll
    { messenger := messengerImpl.Send firstNew.2.1, channelName := "ch", methodCodec := testCodec,
      methods := fun _ => none } 1 regsSecond

/-! ## Lemmas -/

theorem responses_nil : responses [] = [] := rfl

theorem responses_println (t : String) (es : List Event) :
    responses (Event.Println t :: es) = responses es := rfl

theorem responses_send (h : PlatformMessageResponseHandle) (r : ByteSlice) (es : List Event) :
    responses (Event.SendPlatformMessageResponse h r :: es) = (h, r) :: responses es := rfl

theorem responses_ite_println (c : Prop) [Decidable c] (t : String) :
    responses (if c then [Event.Println t] else []) = [] := by
  split <;> rfl

theorem channels_set_same {ω : Type} (m : messenger ω) (c : String)
    (h : Option (ChannelHandlerFunc ω)) : (m.SetChannelHandler c h).channels c = h := by
  cases h <;> simp [messenger.SetChannelHandler]

theorem channels_set_other {ω : Type} (m : messenger ω) (c k : String)
    (h : Option (ChannelHandlerFunc ω)) (hk : k ≠ c) :
    (m.SetChannelHandler c h).channels k = m.channels k := by
  cases h <;> simp [messenger.SetChannelHandler, hk]

theorem engine_set {ω : Type} (m : messenger ω) (c : String)
    (h : Option (ChannelHandlerFunc ω)) : (m.SetChannelHandler c h).engine = m.engine := by
  cases h <;> rfl

/-- The run when no handler is bound to the channel of the message. -/
theorem handle_absent {ω : Type} (m : messenger ω) (message : PlatformMessage) (s : ω)
    (h : m.channels message.Channel = none) :
    m.handlePlatformMessage message s =
      { status := Ctl.exit 1, state := s,
        trace := [Event.Println ("go-flutter: no handler found for channel " ++ message.Channel)] } := by
  simp [messenger.handlePlatformMessage, h]

/-- The run when the bound handler returns an error. -/
theorem handle_error {ω : Type} (m : messenger ω) (message : PlatformMessage) (s s1 : ω)
    (f : ChannelHandlerFunc ω) (reply : ByteSlice) (e : Err)
    (h : m.channels message.Channel = some f)
    (hf : f message.Message s = (Ctl.ret (reply, some e), s1)) :
    m.handlePlatformMessage message s =
      { status := Ctl.exit 1, state := s1,
        trace := [Event.Println ("go-flutter: handling message on channel " ++ message.Channel
                    ++ " failed")] } := by
  simp [messenger.handlePlatformMessage, h, hf]

/-- The run when the bound handler returns a nil error and a reply is expected. -/
theorem handle_ok_token {ω : Type} (m : messenger ω) (message : PlatformMessage) (s s1 : ω)
    (f : ChannelHandlerFunc ω) (reply : ByteSlice)
    (h : m.channels message.Channel = some f)
    (hf : f message.Message s = (Ctl.ret (reply, none), s1))
    (ht : message.ExpectsReply = true) :
    m.handlePlatformMessage message s =
      { status := Ctl.ret (), state := s1,
        trace := Event.SendPlatformMessageResponse message.ResponseHandle reply ::
          (if m.engine.SendPlatformMessageResponse message.ResponseHandle reply ≠ Result.KSuccess then
            [Event.Println ("go-flutter: failed sending response for message on channel "
              ++ message.Channel)]
          else []) } := by
  simp [messenger.handlePlatformMessage, h, hf, ht]

/-- The run when the bound handler returns a nil error and no reply is expected. -/
theorem handle_ok_no_token {ω : Type} (m : messenger ω) (message : PlatformMessage) (s s1 : ω)
    (f : ChannelHandlerFunc ω) (reply : ByteSlice)
    (h : m.channels message.Channel = some f)
    (hf : f message.Message s = (Ctl.ret (reply, none), s1))
    (ht : message.ExpectsReply = false) :
    m.handlePlatformMessage message s = { status := Ctl.ret (), state := s1, trace := [] } := by
  simp [messenger.handlePlatformMessage, h, hf, ht]

/-- What InvokeMethod returns when the codec and Send succeed and DecodeEnvelope
yields a result that is not a FlutterError pointer: the error DecodeEnvelope
returned is not looked at. -/
theorem InvokeMethod_ignores_decode_err {σ : Type} (m : MethodChannel σ) (name : String)
    (arguments : Value) (w : World σ) (encodedMessage encodedReply : ByteSlice) (u : σ)
    (result : Value) (derr : Option Err)
    (henc : m.methodCodec.EncodeMethodCall { Method := name, Arguments := arguments }
      = (encodedMessage, none))
    (hsend : m.messenger.Send m.channelName encodedMessage w.user = ((encodedReply, none), u))
    (hdec : m.methodCodec.DecodeEnvelope encodedReply = (result, derr))
    (hres : ∀ c t d, result ≠ Value.flutterError c t d) :
    (m.InvokeMethod name arguments w).1 = (result, none) := by
  unfold MethodChannel.InvokeMethod
  simp only [henc, World.emit, hsend, hdec]

/-! ## C1: replies to messages that carry a reply token -/

/-- C1, as stated, fails: the message carries reply token 7, yet with no handler
registered for its channel, and also with a registered handler that returns an
error, the run sends no response at all (so not exactly one) and ends the
process with exit status 1. -/
theorem C1_counterexample :
    msgWithToken.ExpectsReply = true ∧
    ¬ ((responses ((newMessenger engineOk : messenger Nat).handlePlatformMessage
          msgWithToken 0).trace).length = 1) ∧
    ((newMessenger engineOk : messenger Nat).handlePlatformMessage msgWithToken 0).status
      = Ctl.exit 1 ∧
    ¬ ((responses (((newMessenger engineOk : messenger Nat).SetChannelHandler "c"
          (some failHandler)).handlePlatformMessage msgWithToken 0).trace).length = 1) ∧
    (((newMessenger engineOk : messenger Nat).SetChannelHandler "c"
          (some failHandler)).handlePlatformMessage msgWithToken 0).status = Ctl.exit 1 := by
  refine ⟨rfl, ?_, ?_, ?_, ?_⟩
  · rw [handle_absent _ _ _ rfl]; simp [responses]
  · rw [handle_absent _ _ _ rfl]
  · rw [handle_error ((newMessenger engineOk : messenger Nat).SetChannelHandler "c"
      (some failHandler)) msgWithToken 0 100 failHandler none (Err.new "boom")
      (channels_set_same _ "c" _) rfl]
    simp [responses]
  · rw [handle_error ((newMessenger engineOk : messenger Nat).SetChannelHandler "c"
      (some failHandler)) msgWithToken 0 100 failHandler none (Err.new "boom")
      (channels_set_same _ "c" _) rfl]

/-- C1, amended: for a message that carries a reply token, (a) when a handler is
bound to the channel and returns a nil error, the run returns normally and sends
exactly one SendPlatformMessageResponse, with the token of the message and the
reply bytes of the handler; (b) when the bound handler returns an error, and (c)
when no handler is bound, the run sends no response and ends the process with
exit status 1. -/
theorem C1_one_reply_when_handler_succeeds {ω : Type} (m : messenger ω)
    (message : PlatformMessage) (s : ω) (htoken : message.ExpectsReply = true) :
    (∀ (f : ChannelHandlerFunc ω) (reply : ByteSlice) (s1 : ω),
        m.channels message.Channel = some f →
        f message.Message s = (Ctl.ret (reply, none), s1) →
        (m.handlePlatformMessage message s).status = Ctl.ret () ∧
        responses (m.handlePlatformMessage message s).trace
          = [(message.ResponseHandle, reply)]) ∧
    (∀ (f : ChannelHandlerFunc ω) (reply : ByteSlice) (e : Err) (s1 : ω),
        m.channels message.Channel = some f →
        f message.Message s = (Ctl.ret (reply, some e), s1) →
        (m.handlePlatformMessage message s).status = Ctl.exit 1 ∧
        responses (m.handlePlatformMessage message s).trace = []) ∧
    (m.channels message.Channel = none →
        (m.handlePlatformMessage message s).status = Ctl.exit 1 ∧
        responses (m.handlePlatformMessage message s).trace = []) := by
  refine ⟨?_, ?_, ?_⟩
  · intro f reply s1 h hf
    rw [handle_ok_token m message s s1 f reply h hf htoken]
    exact ⟨rfl, by rw [responses_send, responses_ite_println]⟩
  · intro f reply e s1 h hf
    rw [handle_error m message s s1 f reply e h hf]
    exact ⟨rfl, rfl⟩
  · intro h
    rw [handle_absent m message s h]
    exact ⟨rfl, rfl⟩

/-- A witness for C1 amended: the echo handler on channel "c" answers the message
with token 7 exactly once, with the payload [1, 2]. -/
theorem C1_one_reply_when_handler_succeeds_witness :
    msgWithToken.ExpectsReply = true ∧
    responses (((newMessenger engineOk : messenger Nat).SetChannelHandler "c"
        (some echoHandler)).handlePlatformMessage msgWithToken 0).trace
      = [({ cHandle := some 7 }, some [1, 2])] :=
  ⟨rfl, ((C1_one_reply_when_handler_succeeds
      ((newMessenger engineOk : messenger Nat).SetChannelHandler "c" (some echoHandler))
      msgWithToken 0 rfl).1 echoHandler (some [1, 2]) 1 (channels_set_same _ "c" _) rfl).2⟩


/-! ## C4: no reply without a reply token -/

/-- C4: for a message that carries no reply token, the run of
handlePlatformMessage contains no SendPlatformMessageResponse, whatever is
bound to the channel and whatever the handler does (nil error, error, panic,
exit) and also when nothing is bound. -/
theorem C4_no_reply_without_token {ω : Type} (m : messenger ω) (message : PlatformMessage)
    (s : ω) (htoken : message.ExpectsReply = false) :
    responses (m.handlePlatformMessage message s).trace = [] := by
  unfold messenger.handlePlatformMessage
  split
  · rfl
  · split
    · rfl
    · rfl
    · rfl
    · simp [htoken, responses]

/-- A witness for C4: the echo handler, the failing handler and the empty
registry, each on the message without a token. -/
theorem C4_no_reply_without_token_witness :
    msgNoToken.ExpectsReply = false ∧
    responses (((newMessenger engineOk : messenger Nat).SetChannelHandler "c"
        (some echoHandler)).handlePlatformMessage msgNoToken 0).trace = [] ∧
    responses (((newMessenger engineOk : messenger Nat).SetChannelHandler "c"
        (some failHandler)).handlePlatformMessage msgNoToken 0).trace = [] ∧
    responses ((newMessenger engineOk : messenger Nat).handlePlatformMessage
        msgNoToken 0).trace = [] :=
  ⟨rfl, C4_no_reply_without_token _ msgNoToken 0 rfl,
    C4_no_reply_without_token _ msgNoToken 0 rfl,
    C4_no_reply_without_token _ msgNoToken 0 rfl⟩

/-! ## C5: the second registration replaces the first -/

/-- C5: after SetChannelHandler(c, h1) and then SetChannelHandler(c, h2), the
registry binds c to h2; a message delivered on c leaves the state that one call
of h2 on the payload of the message produces; and the whole run is the run of a
messenger in which only h2 was ever registered, so h1 takes no part in it. -/
theorem C5_second_handler_replaces_first {ω : Type} (m : messenger ω) (c : String)
    (h1 h2 : ChannelHandlerFunc ω) (message : PlatformMessage) (s : ω)
    (hc : message.Channel = c) :
    ((m.SetChannelHandler c (some h1)).SetChannelHandler c (some h2)).channels c = some h2 ∧
    (((m.SetChannelHandler c (some h1)).SetChannelHandler c (some h2)).handlePlatformMessage
        message s).state = (h2 message.Message s).2 ∧
    ((m.SetChannelHandler c (some h1)).SetChannelHandler c (some h2)).handlePlatformMessage
        message s
      = ((newMessenger m.engine).SetChannelHandler c (some h2)).handlePlatformMessage
          message s := by
  subst hc
  refine ⟨channels_set_same _ _ _, ?_, ?_⟩
  · unfold messenger.handlePlatformMessage
    rw [channels_set_same]
    simp only
    split
    · next h => rw [h]
    · next h => rw [h]
    · next h => rw [h]
    · next h => rw [h]; split <;> rfl
  · unfold messenger.handlePlatformMessage
    rw [channels_set_same, channels_set_same, engine_set, engine_set, engine_set]
    rfl

/-- A witness for C5: h1 would add 100 to the state and h2 adds 1; after both
registrations on "c" the message leaves state 1 and gets the reply of h2. -/
theorem C5_second_handler_replaces_first_witness :
    msgWithToken.Channel = "c" ∧
    ((((newMessenger engineOk : messenger Nat).SetChannelHandler "c"
        (some failHandler)).SetChannelHandler "c" (some echoHandler)).handlePlatformMessage
        msgWithToken 0).state = 1 :=
  ⟨rfl, (C5_second_handler_replaces_first (newMessenger engineOk) "c" failHandler echoHandler
      msgWithToken 0 rfl).2.1⟩

/-! ## C8: a message on a channel without handler -/

/-- C8: when the registry has no handler for the channel of the message (a
registry that never had one, a fresh registry, or one from which the handler was
removed by SetChannelHandler(channel, nil)), the run ends the process with exit
status 1, leaves the state untouched (no handler of any channel ran), and its
trace is the one console line, so no response is sent, token or not. -/
theorem C8_unbound_channel_is_fatal {ω : Type} (m : messenger ω) (message : PlatformMessage)
    (s : ω) :
    (m.channels message.Channel = none →
      m.handlePlatformMessage message s =
        { status := Ctl.exit 1, state := s,
          trace := [Event.Println ("go-flutter: no handler found for channel "
            ++ message.Channel)] }) ∧
    (newMessenger m.engine : messenger ω).handlePlatformMessage message s =
        { status := Ctl.exit 1, state := s,
          trace := [Event.Println ("go-flutter: no handler found for channel "
            ++ message.Channel)] } ∧
    (m.SetChannelHandler message.Channel none).handlePlatformMessage message s =
        { status := Ctl.exit 1, state := s,
          trace := [Event.Println ("go-flutter: no handler found for channel "
            ++ message.Channel)] } ∧
    responses [Event.Println ("go-flutter: no handler found for channel "
            ++ message.Channel)] = [] :=
  ⟨handle_absent m message s, handle_absent _ message s rfl,
    handle_absent _ message s (channels_set_same m message.Channel none), rfl⟩

/-- A witness for C8: the echo handler stays bound to "other", the handler of
"c" is removed, and the message with token 7 on "c" ends the process; the state
is still 0 and nothing is sent. -/
theorem C8_unbound_channel_is_fatal_witness :
    (((newMessenger engineOk : messenger Nat).SetChannelHandler "other"
        (some echoHandler)).channels msgWithToken.Channel).isNone = true ∧
    ((newMessenger engineOk : messenger Nat).SetChannelHandler "other"
        (some echoHandler)).handlePlatformMessage msgWithToken 0 =
      { status := Ctl.exit 1, state := 0,
        trace := [Event.Println "go-flutter: no handler found for channel c"] } :=
  ⟨by simp [messenger.SetChannelHandler, newMessenger, msgWithToken],
   (C8_unbound_channel_is_fatal ((newMessenger engineOk : messenger Nat).SetChannelHandler
      "other" (some echoHandler)) msgWithToken 0).1
      (by simp [messenger.SetChannelHandler, newMessenger, msgWithToken])⟩


/-! ## C2: a method handler that returns an error -/

/-- C2, as stated, fails: on the channel with a handler for "fail" that returns
the error ("E1", "bad input", nil), the call [2] of "fail" makes handleChannel
return a nil reply and a non-nil error, not the bytes of EncodeErrorEnvelope with
a nil error; EncodeErrorEnvelope is not called. -/
theorem C2_counterexample :
    testCodec.DecodeMethodCall (some [2]) = ({ Method := "fail", Arguments := Value.null }, none) ∧
    (testChannel.handleChannel (some [2]) world0).1 =
      Ctl.ret (none, some (Err.wrap (Err.flutterError "E1" "bad input" Value.null)
        "handler for incoming method call failed")) ∧
    ¬ ((testChannel.handleChannel (some [2]) world0).1 =
      Ctl.ret ((testCodec.EncodeErrorEnvelope "E1" "bad input" Value.null).1, none)) ∧
    (testChannel.handleChannel (some [2]) world0).2.log.any Event.isErrorEnvelope = false := by
  refine ⟨rfl, rfl, by decide, rfl⟩

/-- C2, amended: when the payload decodes to a call of a method whose registered
handler returns a non-nil error e, handleChannel returns a nil reply together
with the non-nil error that wraps e with the text "handler for incoming method
call failed"; the handler is called once, the failure is printed, and neither
envelope encoder is called. -/
theorem C2_handler_error_is_returned {σ : Type} (b : MethodChannel σ)
    (binaryMessage : ByteSlice) (w : World σ) (call : MethodCall) (f : HandlerFn σ)
    (reply : Value) (e : Err) (u1 : σ)
    (hdec : b.methodCodec.DecodeMethodCall binaryMessage = (call, none))
    (hreg : b.methods call.Method = some (MethodHandler.MethodHandlerFunc (some f)))
    (hf : f call.Arguments w.user = ((reply, some e), u1)) :
    b.handleChannel binaryMessage w =
      (Ctl.ret (none, some (Err.wrap e "handler for incoming method call failed")),
        { user := u1,
          log := w.log ++ [Event.DecodeMethodCall binaryMessage,
            Event.HandleMethod call.Method call.Arguments,
            Event.Printf "go-flutter: handler for method '%s' on channel '%s' returned an error: %v"
              [PrintArg.str call.Method, PrintArg.str b.channelName, PrintArg.err e]] }) := by
  simp [MethodChannel.handleChannel, hdec, hreg, MethodHandler.HandleMethod, World.emit, hf,
    errors.Wrap]

/-- A witness for C2 amended: the call [2] of "fail" on the test channel. -/
theorem C2_handler_error_is_returned_witness :
    (testChannel.handleChannel (some [2]) world0).1 =
      Ctl.ret (none, some (Err.wrap (Err.flutterError "E1" "bad input" Value.null)
        "handler for incoming method call failed")) :=
  congrArg Prod.fst (C2_handler_error_is_returned testChannel (some [2]) world0
    { Method := "fail", Arguments := Value.null } failMethod Value.null
    (Err.flutterError "E1" "bad input" Value.null) 100 rfl rfl rfl)

/-! ## C3: InvokeMethod and the Error variant of the reply -/

/-- C3 at the failing input: EncodeMethodCall and Send succeed, the reply is the
Error envelope [11], and DecodeEnvelope reports it by returning the non-nil error
("E1", "bad input", nil); InvokeMethod nevertheless returns a nil result and a
nil error. -/
theorem C3_invoke_returns_nil_error_on_error_envelope :
    testCodec.EncodeMethodCall { Method := "m", Arguments := Value.int 1 } = (some [0], none) ∧
    replyMessenger.Send "ch" (some [0]) 0 = ((some [11], none), 1000) ∧
    testCodec.DecodeEnvelope (some [11])
      = (Value.null, some (Err.flutterError "E1" "bad input" Value.null)) ∧
    (testChannel.InvokeMethod "m" (Value.int 1) world0).1 = (Value.null, none) := by
  refine ⟨rfl, rfl, rfl, rfl⟩

/-! ## C6: a method handler that returns a value -/

/-- C6: when the payload decodes to (m, args), a handler h is registered for m,
and h(args) returns (v, nil), then handleChannel calls h once, with args (the log
gains one HandleMethod event and the user state is the one h left), calls
EncodeSuccessEnvelope(v), and returns its bytes with a nil error when encoding
succeeds, and a nil reply with a non-nil error (wrapping the encoding error) when
it fails. -/
theorem C6_handler_value_is_success_envelope {σ : Type} (b : MethodChannel σ)
    (binaryMessage : ByteSlice) (w : World σ) (call : MethodCall) (f : HandlerFn σ)
    (v : Value) (u1 : σ)
    (hdec : b.methodCodec.DecodeMethodCall binaryMessage = (call, none))
    (hreg : b.methods call.Method = some (MethodHandler.MethodHandlerFunc (some f)))
    (hf : f call.Arguments w.user = ((v, none), u1)) :
    (b.handleChannel binaryMessage w).2 =
      { user := u1,
        log := w.log ++ [Event.DecodeMethodCall binaryMessage,
          Event.HandleMethod call.Method call.Arguments, Event.EncodeSuccessEnvelope v] } ∧
    handlerCalls [Event.DecodeMethodCall binaryMessage,
          Event.HandleMethod call.Method call.Arguments, Event.EncodeSuccessEnvelope v]
      = [(call.Method, call.Arguments)] ∧
    (∀ binaryReply, b.methodCodec.EncodeSuccessEnvelope v = (binaryReply, none) →
      (b.handleChannel binaryMessage w).1 = Ctl.ret (binaryReply, none)) ∧
    (∀ binaryReply err, b.methodCodec.EncodeSuccessEnvelope v = (binaryReply, some err) →
      (b.handleChannel binaryMessage w).1 =
        Ctl.ret (none, some (Err.wrap err "failed to encode outgoing reply"))) := by
  refine ⟨?_, rfl, ?_, ?_⟩
  · simp only [MethodChannel.handleChannel, hdec, hreg, MethodHandler.HandleMethod, World.emit, hf]
    split <;> simp
  · intro binaryReply henc
    simp [MethodChannel.handleChannel, hdec, hreg, MethodHandler.HandleMethod, World.emit, hf,
      henc]
  · intro binaryReply err henc
    simp [MethodChannel.handleChannel, hdec, hreg, MethodHandler.HandleMethod, World.emit, hf,
      henc, errors.Wrap]

/-- A witness for C6: the call [0] is echo(1); the reply is the Success envelope
[10, 1] and the handler ran once (user state 1). -/
theorem C6_handler_value_is_success_envelope_witness :
    (testChannel.handleChannel (some [0]) world0).1 = Ctl.ret (some [10, 1], none) ∧
    (testChannel.handleChannel (some [0]) world0).2.user = 1 :=
  ⟨(C6_handler_value_is_success_envelope testChannel (some [0]) world0
      { Method := "echo", Arguments := Value.int 1 } echoMethod (Value.int 1) 1
      rfl rfl rfl).2.2.1 (some [10, 1]) rfl,
   congrArg World.user (C6_handler_value_is_success_envelope testChannel (some [0]) world0
      { Method := "echo", Arguments := Value.int 1 } echoMethod (Value.int 1) 1
      rfl rfl rfl).1⟩

/-! ## C7: a call of a method without handler -/

/-- C7: when the payload decodes to a call of a method that has no handler in
the table (whatever else is registered), handleChannel returns a nil reply and a
nil error; the user state is untouched and the log gains only the decoding and
the printed line, so no method handler is invoked and neither
EncodeSuccessEnvelope nor EncodeErrorEnvelope is called. -/
theorem C7_unregistered_method_nil_reply {σ : Type} (b : MethodChannel σ)
    (binaryMessage : ByteSlice) (w : World σ) (call : MethodCall)
    (hdec : b.methodCodec.DecodeMethodCall binaryMessage = (call, none))
    (hreg : b.methods call.Method = none) :
    b.handleChannel binaryMessage w =
      (Ctl.ret (none, none),
        { user := w.user,
          log := w.log ++ [Event.DecodeMethodCall binaryMessage,
            Event.Printf "go-flutter: no method handler registered for method '%s' on channel '%s'\n"
              [PrintArg.str call.Method, PrintArg.str b.channelName]] }) ∧
    handlerCalls [Event.DecodeMethodCall binaryMessage,
        Event.Printf "go-flutter: no method handler registered for method '%s' on channel '%s'\n"
          [PrintArg.str call.Method, PrintArg.str b.channelName]] = [] ∧
    [Event.DecodeMethodCall binaryMessage,
        Event.Printf "go-flutter: no method handler registered for method '%s' on channel '%s'\n"
          [PrintArg.str call.Method, PrintArg.str b.channelName]].any Event.isEnvelopeEncoding
      = false := by
  refine ⟨?_, rfl, rfl⟩
  simp [MethodChannel.handleChannel, hdec, hreg, World.emit]

/-- A witness for C7: the call [1] of "missing" on the channel that has handlers
for echo, fail and text. -/
theorem C7_unregistered_method_nil_reply_witness :
    (testChannel.methods "echo").isSome = true ∧
    (testChannel.handleChannel (some [1]) world0).1 = Ctl.ret (none, none) :=
  ⟨rfl, congrArg Prod.fst (C7_unregistered_method_nil_reply testChannel (some [1]) world0
      { Method := "missing", Arguments := Value.null } rfl rfl).1⟩

/-! ## C9: a payload that the codec rejects -/

/-- C10 at the failing input: after Handle("echo", nil) an inbound call of echo
returns a nil reply and a nil error, but after HandleFunc("echo", nil) the table
holds a non-nil MethodHandlerFunc wrapping the nil func, and the same inbound
call panics in HandleMethod. -/
theorem C10_handlefunc_nil_panics :
    ((testChannel.Handle "echo" none).handleChannel (some [0]) world0).1
      = Ctl.ret (none, none) ∧
    ((testChannel.HandleFunc "echo" none).methods "echo").isSome = true ∧
    ((testChannel.HandleFunc "echo" none).handleChannel (some [0]) world0).1
      = Ctl.panic "invalid memory address or nil pointer dereference" := by
  refine ⟨rfl, rfl, rfl⟩


/-! ## Lemmas on bound handlers and the heap -/

/-- The state a run leaves is the state the bound handler leaves. -/
theorem run_state {ω : Type} (m : messenger ω) (message : PlatformMessage) (s : ω)
    (f : ChannelHandlerFunc ω) (hm : m.channels message.Channel = some f) :
    (m.handlePlatformMessage message s).state = (f message.Message s).2 := by
  unfold messenger.handlePlatformMessage
  rw [hm]
  simp only
  split
  · next h => rw [h]
  · next h => rw [h]
  · next h => rw [h]
  · next h => rw [h]; split <;> rfl

/-- Status and trace of a run depend only on the engine, the message, and what
the bound handler returns. -/
theorem run_congr {ω τ : Type} (m : messenger ω) (n : messenger τ) (message : PlatformMessage)
    (s : ω) (t : τ) (f : ChannelHandlerFunc ω) (g : ChannelHandlerFunc τ)
    (hm : m.channels message.Channel = some f) (hn : n.channels message.Channel = some g)
    (he : m.engine = n.engine) (hr : (f message.Message s).1 = (g message.Message t).1) :
    (m.handlePlatformMessage message s).status = (n.handlePlatformMessage message t).status ∧
    (m.handlePlatformMessage message s).trace = (n.handlePlatformMessage message t).trace := by
  unfold messenger.handlePlatformMessage
  rw [hm, hn, he]
  simp only
  generalize f message.Message s = x at hr
  generalize g message.Message t = y at hr
  obtain ⟨r, s1⟩ := x
  obtain ⟨r2, t1⟩ := y
  simp only at hr
  subst hr
  rcases r with ⟨reply, _ | e⟩ | reason | code
  · simp only
    split <;> exact ⟨rfl, rfl⟩
  · exact ⟨rfl, rfl⟩
  · exact ⟨rfl, rfl⟩
  · exact ⟨rfl, rfl⟩

/-- Two messengers with the same engine whose handlers for the channel of the
message agree on the payload and state give the same run. -/
theorem run_eq {ω : Type} (m n : messenger ω) (message : PlatformMessage) (s : ω)
    (f g : ChannelHandlerFunc ω)
    (hm : m.channels message.Channel = some f) (hn : n.channels message.Channel = some g)
    (he : m.engine = n.engine) (hfg : f message.Message s = g message.Message s) :
    m.handlePlatformMessage message s = n.handlePlatformMessage message s := by
  unfold messenger.handlePlatformMessage
  rw [hm, hn, he]
  simp only
  rw [hfg]

/-- A call through the pointer is a call of the struct it points to. -/
theorem handleChannelAt_eq {σ : Type} (mc : Nat) (b : MethodChannel σ) (h : Heap σ)
    (binaryMessage : ByteSlice) (hcell : h.cells[mc]? = some b) :
    handleChannelAt mc binaryMessage h = handleChannelOf b binaryMessage h := by
  simp [handleChannelAt, handleChannelOf, hcell]

/-- What handleChannelOf returns and the world it leaves do not depend on the
cells of the heap. -/
theorem handleChannelOf_cells {σ : Type} (b : MethodChannel σ) (h : Heap σ)
    (cells : List (MethodChannel σ)) (binaryMessage : ByteSlice) :
    (handleChannelOf b binaryMessage { h with cells := cells }).1
      = (handleChannelOf b binaryMessage h).1 ∧
    (handleChannelOf b binaryMessage { h with cells := cells }).2.world
      = (handleChannelOf b binaryMessage h).2.world := by
  simp [handleChannelOf]

/-- What handleChannelOf returns and the world it leaves depend on the world of
the heap only. -/
theorem handleChannelOf_world {σ : Type} (b : MethodChannel σ) (h k : Heap σ)
    (binaryMessage : ByteSlice) (hw : h.world = k.world) :
    (handleChannelOf b binaryMessage h).1 = (handleChannelOf b binaryMessage k).1 ∧
    (handleChannelOf b binaryMessage h).2.world = (handleChannelOf b binaryMessage k).2.world ∧
    (handleChannelOf b binaryMessage h).2.world = (b.handleChannel binaryMessage k.world).2 := by
  simp [handleChannelOf, hw]

theorem register_world {σ : Type} (h : Heap σ) (r : Registration σ) :
    (h.register r).world = h.world := by
  unfold Heap.register
  split <;> rfl

theorem register_length {σ : Type} (h : Heap σ) (r : Registration σ) :
    (h.register r).cells.length = h.cells.length := by
  unfold Heap.register
  split
  · rfl
  · simp

theorem register_cells {σ : Type} (h : Heap σ) (r : Registration σ) (p : Nat) :
    (h.register r).cells[p]? =
      if r.mc = p then (h.cells[p]?).map r.applyTo else h.cells[p]? := by
  unfold Heap.register
  by_cases hp : r.mc = p
  · subst hp
    simp only [if_true]
    cases hcell : h.cells[r.mc]? with
    | none => simp [hcell]
    | some b =>
      have hlt : r.mc < h.cells.length := by
        rcases List.getElem?_eq_some.mp hcell with ⟨hl, _⟩
        exact hl
      simp [hlt]
  · simp only [hp, if_false]
    split
    · rfl
    · simp [List.getElem?_set_ne hp]

theorem registerAll_world {σ : Type} (rs : List (Registration σ)) (h : Heap σ) :
    (h.registerAll rs).world = h.world := by
  induction rs generalizing h with
  | nil => rfl
  | cons r rs ih =>
    show ((h.register r).registerAll rs).world = h.world
    rw [ih, register_world]

theorem registerAll_length {σ : Type} (rs : List (Registration σ)) (h : Heap σ) :
    (h.registerAll rs).cells.length = h.cells.length := by
  induction rs generalizing h with
  | nil => rfl
  | cons r rs ih =>
    show ((h.register r).registerAll rs).cells.length = h.cells.length
    rw [ih, register_length]

/-- After a sequence of registrations, the struct at a pointer is the struct
that was there, changed by the registrations through that pointer only. -/
theorem registerAll_cells {σ : Type} (rs : List (Registration σ)) (h : Heap σ) (p : Nat) :
    (h.registerAll rs).cells[p]? = (h.cells[p]?).map (fun b => b.registerAll p rs) := by
  induction rs generalizing h with
  | nil =>
    show h.cells[p]? = _
    cases h.cells[p]? <;> rfl
  | cons r rs ih =>
    show ((h.register r).registerAll rs).cells[p]? = _
    rw [ih, register_cells]
    by_cases hp : r.mc = p
    · simp only [hp, if_true]
      cases h.cells[p]? with
      | none => rfl
      | some b => simp [MethodChannel.registerAll, List.filter, hp]
    · simp only [hp, if_false]
      cases h.cells[p]? with
      | none => rfl
      | some b => simp [MethodChannel.registerAll, List.filter, hp]

/-! ## C11: NewMethodChannel registers the new channel, the last one wins -/

/-- C11. (1) For every implementation of BinaryMessenger, the messenger after
NewMethodChannel(messenger, c, codec) is the messenger before with one call
SetChannelHandler(c, handleChannel of the new pointer) applied. (2) The pointer
returned is fresh, the struct it names has the given messenger, name and codec
and an empty method table, older structs are untouched and so is the plugin
world. (3) On the messenger of package flutter: mc1 is constructed with name c,
any registrations rs1 follow, mc2 is constructed with the same name c, any
registrations rs2 follow. Then mc2 is not mc1, c is bound to the handleChannel
of mc2, and the struct of mc2 is the fresh struct changed by the registrations
of rs2 that go through mc2 and by nothing else. A message on c runs as on a
messenger whose only handler is handleChannel of that struct; the plugin world
it leaves is the one this handleChannel produces, and status and trace are those
of that handler on a heap with no other struct. Registrations through mc1, in
rs1 or rs2, occur in none of these results, so no handler registered on mc1 is
invoked. -/
theorem C11_second_method_channel_takes_over {σ μ : Type} (impl : MessengerImpl σ μ) (ms : μ)
    (m : messenger (Heap σ)) (c : String) (codec1 codec2 : MethodCodec) (h0 : Heap σ)
    (rs1 rs2 : List (Registration σ)) (message : PlatformMessage)
    (mc1 mc2 : Nat) (m1 m2 : messenger (Heap σ)) (hA hB : Heap σ) (b2 : MethodChannel σ)
    (hc : message.Channel = c)
    (hnew1 : NewMethodChannel messengerImpl m c codec1 h0 = (mc1, m1, hA))
    (hnew2 : NewMethodChannel messengerImpl m1 c codec2 (hA.registerAll rs1) = (mc2, m2, hB))
    (hb2 : b2 = MethodChannel.registerAll
      { messenger := messengerImpl.Send m1, channelName := c, methodCodec := codec2,
        methods := fun _ => none } mc2 rs2) :
    (NewMethodChannel impl ms c codec1 h0).2.1
      = impl.SetChannelHandler c
          (some (handleChannelAt (NewMethodChannel impl ms c codec1 h0).1)) ms ∧
    h0.cells[(NewMethodChannel impl ms c codec1 h0).1]? = none ∧
    (NewMethodChannel impl ms c codec1 h0).2.2.cells[(NewMethodChannel impl ms c codec1 h0).1]?
      = some { messenger := impl.Send ms, channelName := c, methodCodec := codec1,
               methods := fun _ => none } ∧
    (∀ i, i < h0.cells.length →
      (NewMethodChannel impl ms c codec1 h0).2.2.cells[i]? = h0.cells[i]?) ∧
    (NewMethodChannel impl ms c codec1 h0).2.2.world = h0.world ∧
    mc2 ≠ mc1 ∧
    m2.channels c = some (handleChannelAt mc2) ∧
    (hB.registerAll rs2).cells[mc2]? = some b2 ∧
    m2.handlePlatformMessage message (hB.registerAll rs2)
      = ((newMessenger m.engine).SetChannelHandler c
          (some (handleChannelOf b2))).handlePlatformMessage message (hB.registerAll rs2) ∧
    (m2.handlePlatformMessage message (hB.registerAll rs2)).state.world
      = (b2.handleChannel message.Message h0.world).2 ∧
    (m2.handlePlatformMessage message (hB.registerAll rs2)).status
      = (((newMessenger m.engine).SetChannelHandler c
          (some (handleChannelOf b2))).handlePlatformMessage message
            { world := h0.world, cells := [] }).status ∧
    (m2.handlePlatformMessage message (hB.registerAll rs2)).trace
      = (((newMessenger m.engine).SetChannelHandler c
          (some (handleChannelOf b2))).handlePlatformMessage message
            { world := h0.world, cells := [] }).trace := by
  subst hc
  have emc1 : mc1 = h0.cells.length := (congrArg Prod.fst hnew1).symm
  have em1 : m1 = m.SetChannelHandler message.Channel (some (handleChannelAt mc1)) := by
    rw [emc1]; exact (congrArg (fun x => x.2.1) hnew1).symm
  have eA : hA = (NewMethodChannel messengerImpl m message.Channel codec1 h0).2.2 :=
    (congrArg (fun x => x.2.2) hnew1).symm
  have ehA : hA.cells.length = h0.cells.length + 1 := by
    rw [eA]
    simp [NewMethodChannel]
  have ewA : hA.world = h0.world := by
    rw [eA]
    rfl
  have emc2 : mc2 = (hA.registerAll rs1).cells.length := (congrArg Prod.fst hnew2).symm
  have emc2v : mc2 = h0.cells.length + 1 := by rw [emc2, registerAll_length, ehA]
  have em2 : m2 = m1.SetChannelHandler message.Channel (some (handleChannelAt mc2)) := by
    rw [emc2]; exact (congrArg (fun x => x.2.1) hnew2).symm
  have eB : hB = (NewMethodChannel messengerImpl m1 message.Channel codec2
      (hA.registerAll rs1)).2.2 := (congrArg (fun x => x.2.2) hnew2).symm
  have ewB : hB.world = h0.world := by
    rw [eB]
    show (hA.registerAll rs1).world = h0.world
    rw [registerAll_world, ewA]
  have ecB : hB.cells[mc2]? = some
      { messenger := messengerImpl.Send m1, channelName := message.Channel, methodCodec := codec2,
        methods := fun _ => none } := by
    rw [eB, emc2]
    simp [NewMethodChannel]
  have hcell2 : (hB.registerAll rs2).cells[mc2]? = some b2 := by
    rw [registerAll_cells, ecB, hb2]
    rfl
  have hworld2 : (hB.registerAll rs2).world
      = ({ world := h0.world, cells := [] } : Heap σ).world := by
    rw [registerAll_world, ewB]
  have hbound : m2.channels message.Channel = some (handleChannelAt mc2) := by
    rw [em2]; exact channels_set_same _ _ _
  have heng : m2.engine = m.engine := by
    rw [em2, engine_set, em1, engine_set]
  have href : ((newMessenger m.engine : messenger (Heap σ)).SetChannelHandler message.Channel
      (some (handleChannelOf b2))).channels message.Channel = some (handleChannelOf b2) :=
    channels_set_same _ _ _
  have hrefeng : m2.engine = ((newMessenger m.engine : messenger (Heap σ)).SetChannelHandler
      message.Channel (some (handleChannelOf b2))).engine := by
    rw [engine_set, heng]; rfl
  refine ⟨rfl, ?_, ?_, ?_, rfl, ?_, hbound, hcell2, ?_, ?_, ?_⟩
  · simp [NewMethodChannel]
  · simp [NewMethodChannel]
  · intro i hi
    simp [NewMethodChannel, List.getElem?_append_left hi]
  · omega
  · exact run_eq _ _ message _ _ _ hbound href hrefeng
      (handleChannelAt_eq _ b2 _ _ hcell2)
  · rw [run_state _ message _ _ hbound, handleChannelAt_eq _ b2 _ _ hcell2]
    exact (handleChannelOf_world b2 _ { world := h0.world, cells := [] } message.Message
      hworld2).2.2
  · refine run_congr _ _ message _ _ _ _ hbound href hrefeng ?_
    rw [handleChannelAt_eq _ b2 _ _ hcell2]
    exact (handleChannelOf_world b2 _ { world := h0.world, cells := [] } message.Message
      hworld2).1

/-- A witness for C11: the recording implementation sees one SetChannelHandler
call, for "ch". On the flutter messenger the pointers are 0 and 1; fail is
registered on the first channel only, so the call fail() on "ch" finds no
handler in the table of the second: the run returns, replies nil for token 7 and
leaves user state 0 (failMethod would leave 100 and end the process). The call
echo(1) runs echoMethod of the second channel (user state 1), not failMethod of
the first. -/
theorem C11_second_method_channel_takes_over_witness :
    msgFail.Channel = "ch" ∧
    (NewMethodChannel recordingImpl [] "ch" testCodec heap0).2.1 = ["ch"] ∧
    (1 : Nat) ≠ 0 ∧
    (secondNew.2.1.handlePlatformMessage msgFail
        (secondNew.2.2.registerAll regsSecond)).status = Ctl.ret () ∧
    (secondNew.2.1.handlePlatformMessage msgFail
        (secondNew.2.2.registerAll regsSecond)).trace
      = [Event.SendPlatformMessageResponse { cHandle := some 7 } none] ∧
    (secondNew.2.1.handlePlatformMessage msgFail
        (secondNew.2.2.registerAll regsSecond)).state.world.user = 0 ∧
    (secondNew.2.1.handlePlatformMessage msgEcho
        (secondNew.2.2.registerAll regsSecond)).state.world.user = 1 := by
  have hfail := C11_second_method_channel_takes_over recordingImpl [] (newMessenger engineOk)
    "ch" testCodec testCodec heap0 regsFirst regsSecond msgFail 0 1 firstNew.2.1 secondNew.2.1
    firstNew.2.2 secondNew.2.2 secondStruct rfl rfl rfl rfl
  have hecho := C11_second_method_channel_takes_over recordingImpl [] (newMessenger engineOk)
    "ch" testCodec testCodec heap0 regsFirst regsSecond msgEcho 0 1 firstNew.2.1 secondNew.2.1
    firstNew.2.2 secondNew.2.2 secondStruct rfl rfl rfl rfl
  obtain ⟨h1, -, -, -, -, h6, -, -, -, h10, h11, h12⟩ := hfail
  obtain ⟨-, -, -, -, -, -, -, -, -, e10, -, -⟩ := hecho
  exact ⟨rfl, h1, h6, h11.trans rfl, h12.trans rfl, (congrArg World.user h10).trans rfl,
    (congrArg World.user e10).trans rfl⟩

/-! ## C12: InvokeMethod stops at the first failure -/

/-- C12: (a) when EncodeMethodCall fails with e, InvokeMethod returns a nil
result and the non-nil error wrapping e, the log gains only the encoding (Send is
not called, the user state is untouched); (b) when encoding succeeds and Send
returns the error e, InvokeMethod returns a nil result and the non-nil error
wrapping e, and the log gains the encoding and the Send (DecodeEnvelope is not
called); (c) when both succeed, the log gains the encoding, one Send with the
channelName of the MethodChannel and the encoded bytes, and the DecodeEnvelope
of the reply. -/
theorem C12_invoke_short_circuits {σ : Type} (m : MethodChannel σ) (name : String)
    (arguments : Value) (w : World σ) :
    (∀ (bytes : ByteSlice) (e : Err),
      m.methodCodec.EncodeMethodCall { Method := name, Arguments := arguments }
        = (bytes, some e) →
      m.InvokeMethod name arguments w =
        ((Value.null, some (Err.wrap e "failed to encode methodcall")),
          { user := w.user,
            log := w.log ++ [Event.EncodeMethodCall { Method := name, Arguments := arguments }] }) ∧
      sendCalls [Event.EncodeMethodCall { Method := name, Arguments := arguments }] = []) ∧
    (∀ (bytes reply : ByteSlice) (e : Err) (u : σ),
      m.methodCodec.EncodeMethodCall { Method := name, Arguments := arguments }
        = (bytes, none) →
      m.messenger.Send m.channelName bytes w.user = ((reply, some e), u) →
      m.InvokeMethod name arguments w =
        ((Value.null, some (Err.wrap e "failed to send methodcall")),
          { user := u,
            log := w.log ++ [Event.EncodeMethodCall { Method := name, Arguments := arguments },
              Event.Send m.channelName bytes] }) ∧
      [Event.EncodeMethodCall { Method := name, Arguments := arguments },
        Event.Send m.channelName bytes].any Event.isDecodeEnvelope = false) ∧
    (∀ (bytes reply : ByteSlice) (u : σ),
      m.methodCodec.EncodeMethodCall { Method := name, Arguments := arguments }
        = (bytes, none) →
      m.messenger.Send m.channelName bytes w.user = ((reply, none), u) →
      (m.InvokeMethod name arguments w).2 =
        { user := u,
          log := w.log ++ [Event.EncodeMethodCall { Method := name, Arguments := arguments },
            Event.Send m.channelName bytes, Event.DecodeEnvelope reply] } ∧
      sendCalls [Event.EncodeMethodCall { Method := name, Arguments := arguments },
            Event.Send m.channelName bytes, Event.DecodeEnvelope reply]
        = [(m.channelName, bytes)]) := by
  refine ⟨?_, ?_, ?_⟩
  · intro bytes e henc
    refine ⟨?_, rfl⟩
    simp [MethodChannel.InvokeMethod, henc, World.emit, errors.Wrap]
  · intro bytes reply e u henc hsend
    refine ⟨?_, rfl⟩
    simp [MethodChannel.InvokeMethod, henc, World.emit, hsend, errors.Wrap]
  · intro bytes reply u henc hsend
    refine ⟨?_, rfl⟩
    simp only [MethodChannel.InvokeMethod, henc, World.emit, hsend]
    split <;> simp

/-- A witness for C12: an empty method name makes the test codec fail, and the
user state stays 0 (Send would add 1000); a proper name goes through one Send on
"ch" with the bytes [0]. -/
theorem C12_invoke_short_circuits_witness :
    testChannel.InvokeMethod "" Value.null world0 =
      ((Value.null, some (Err.wrap (Err.new "empty method name") "failed to encode methodcall")),
        { user := 0,
          log := [Event.EncodeMethodCall { Method := "", Arguments := Value.null }] }) ∧
    (testChannel.InvokeMethod "m" (Value.int 1) world0).2 =
      { user := 1000,
        log := [Event.EncodeMethodCall { Method := "m", Arguments := Value.int 1 },
          Event.Send "ch" (some [0]), Event.DecodeEnvelope (some [11])] } :=
  ⟨((C12_invoke_short_circuits testChannel "" Value.null world0).1 none
      (Err.new "empty method name") rfl).1,
   ((C12_invoke_short_circuits testChannel "m" (Value.int 1) world0).2.2 (some [0]) (some [11])
      1000 rfl rfl).1⟩

/-! ## C13: messenger.Send -/

/-- C13: messenger.Send makes one SendPlatformMessage call with the channel and
the payload; it returns (nil, nil) exactly when the engine answers KSuccess, and
otherwise a nil reply with the non-nil error "failed to send message"; the reply
is nil in every case and the error is never a FlutterError. -/
theorem C13_send_result {ω : Type} (m : messenger ω) (channel : String)
    (encodedMessage : ByteSlice) :
    ((m.Send channel encodedMessage).1 = (none, none) ↔
      m.engine.SendPlatformMessage
        { Channel := channel, Message := encodedMessage, ResponseHandle := { cHandle := none } }
        = Result.KSuccess) ∧
    (m.engine.SendPlatformMessage
        { Channel := channel, Message := encodedMessage, ResponseHandle := { cHandle := none } }
        ≠ Result.KSuccess →
      (m.Send channel encodedMessage).1 = (none, some (Err.new "failed to send message"))) ∧
    (m.Send channel encodedMessage).1.1 = none ∧
    (∀ (code message : String) (details : Value),
      (m.Send channel encodedMessage).1.2 ≠ some (Err.flutterError code message details)) ∧
    (m.Send channel encodedMessage).2 = [Event.SendPlatformMessage
        { Channel := channel, Message := encodedMessage,
          ResponseHandle := { cHandle := none } }] := by
  unfold messenger.Send
  simp only
  by_cases hres : m.engine.SendPlatformMessage
        { Channel := channel, Message := encodedMessage, ResponseHandle := { cHandle := none } }
        = Result.KSuccess
  · simp [hres]
  · simp [hres]

/-- A witness for C13: an engine that rejects the call, and one that accepts it. -/
theorem C13_send_result_witness :
    ((newMessenger engineBad : messenger Nat).Send "c" (some [1])).1
      = (none, some (Err.new "failed to send message")) ∧
    ((newMessenger engineOk : messenger Nat).Send "c" (some [1])).1 = (none, none) :=
  ⟨(C13_send_result (newMessenger engineBad : messenger Nat) "c" (some [1])).2.1 (by decide),
   (C13_send_result (newMessenger engineOk : messenger Nat) "c" (some [1])).1.mpr rfl⟩

/-! ## C14: the pixel ratio sent by the framebuffer-size callback -/

/-- The first call of a callback made with pixelRatio 0 sends the width and
height it was given and the pixel ratio of the claim. -/
theorem first_call_sends_claimed_ratio (monitorScreenCoordinatesPerInch : ℚ)
    (width widthPx heightPx : Int) :
    ((newGLFWFramebufferSizeCallback 0 monitorScreenCoordinatesPerInch).call width widthPx
        heightPx).sent
      = { Width := widthPx, Height := heightPx,
          PixelRatio := claimedPixelRatio monitorScreenCoordinatesPerInch width widthPx } := by
  unfold FramebufferSizeCallback.call newGLFWFramebufferSizeCallback claimedPixelRatio dpPerInch
  by_cases hw : width = 0
  · simp [hw]
  · simp only [hw, if_true, if_false]
    by_cases hlt : (widthPx : ℚ) / (width : ℚ) * monitorScreenCoordinatesPerInch / 160 < 1
    · simp [hlt, max_eq_left (le_of_lt hlt)]
    · simp [hlt, max_eq_right (not_lt.mp hlt)]

/-- C14 at the failing input: the callback is made with pixelRatio 0 and 160
screen coordinates per inch. The first call (framebuffer 800 x 600, window width
800) sends ratio 1, as the claim says. The second call (framebuffer 1600 x 1200,
window width 800) sends Width 1600, Height 1200 and again ratio 1, the value the
first call stored in the captured variable, where the claim asks for
max(1, (1600 / 800) * 160 / 160) = 2. Every value at this input is an integer
that float64 holds exactly. -/
theorem C14_second_call_reuses_first_ratio :
    ((newGLFWFramebufferSizeCallback 0 160).call 800 800 600).sent
      = { Width := 800, Height := 600, PixelRatio := claimedPixelRatio 160 800 800 } ∧
    ((newGLFWFramebufferSizeCallback 0 160).call 800 800 600).closure.pixelRatio = 1 ∧
    (((newGLFWFramebufferSizeCallback 0 160).call 800 800 600).closure.call 800 1600 1200).sent
      = { Width := 1600, Height := 1200, PixelRatio := 1 } ∧
    claimedPixelRatio 160 800 1600 = 2 ∧
    (((newGLFWFramebufferSizeCallback 0 160).call 800 800 600).closure.call 800 1600
        1200).sent.PixelRatio ≠ claimedPixelRatio 160 800 1600 := by
  have h2 : claimedPixelRatio 160 800 1600 = 2 := by norm_num [claimedPixelRatio]
  have h1 : ((newGLFWFramebufferSizeCallback 0 160).call 800 800 600).closure.pixelRatio = 1 := by
    norm_num [FramebufferSizeCallback.call, newGLFWFramebufferSizeCallback, dpPerInch]
  have hne : ((newGLFWFramebufferSizeCallback 0 160).call 800 800 600).closure.pixelRatio ≠ 0 := by
    rw [h1]; norm_num
  have h3 : (((newGLFWFramebufferSizeCallback 0 160).call 800 800 600).closure.call 800 1600
      1200).sent = { Width := 1600, Height := 1200, PixelRatio := 1 } := by
    rw [FramebufferSizeCallback.call, if_neg hne, h1]
  refine ⟨first_call_sends_claimed_ratio 160 800 800 600, h1, h3, h2, ?_⟩
  rw [h3, h2]
  norm_num

end GoFlutter
